import Mathlib

/-!
Verification of the Dual KPI visual (two near-duplicate TypeScript sources:
`src/src/visual.ts`, called V1 below, and `src/unnamed/part_000`, the revised
variant).  JavaScript numbers are modelled as exact rationals (ℚ), dates as
their millisecond timestamps (also ℚ, via `Date.getTime`).  A JavaScript
`undefined` outcome, or a thrown `TypeError`, is modelled with `Option` /
explicit outcome types, as noted at each definition.
-/

/-- Math.abs on rationals (`Math.abs(x)`). -/
def mathAbs (q : ℚ) : ℚ := if q < 0 then -q else q

/-- JavaScript `x.toFixed(1)`: sign of x, then |x| rounded to one decimal
digit, ties rounding up (ECMA-262: the sign is peeled off first and the
magnitude is rounded to the closer candidate, the larger one on a tie). -/
def toFixed1 (q : ℚ) : String :=
  (if q < 0 then "-" else "")
    ++ toString ((⌊mathAbs q * 10 + 1/2⌋).toNat / 10)
    ++ "." ++ toString ((⌊mathAbs q * 10 + 1/2⌋).toNat % 10)

/-- DualKpi.percentFormatter (visual.ts lines 418-427 / part_000 577-586):
`prefix = value >= 0 ? "+" : ""; valueString = (value*100).toFixed(1)+"%"`,
the sign prepended only when showPlusMinus is set. -/
def percentFormatter (value : ℚ) (showPlusMinus : Bool) : String :=
  if showPlusMinus then
    (if 0 ≤ value then "+" else "") ++ (toFixed1 (value * 100) ++ "%")
  else
    toFixed1 (value * 100) ++ "%"

/-- DualKpi.getPercentChange (visual.ts lines 429-442 / part_000 588-601). -/
def getPercentChange (startValue endValue : ℚ) : String :=
  if startValue = 0 then "n/a"
  else
    percentFormatter
      (if endValue < startValue then
        mathAbs ((endValue - startValue) / startValue) * (-1)
       else
        mathAbs ((endValue - startValue) / startValue)) true

/-- Ten times the displayed percent-change magnitude: |E−S|/|S|·100, to one
decimal digit, as the numerator over 10 (rounding ties up, as toFixed does). -/
def round1Mag (S E : ℚ) : ℕ :=
  (⌊mathAbs (E - S) / mathAbs S * 1000 + 1/2⌋).toNat

/-- Latest-value rendering of a percent-valued panel (visual.ts line 935 /
part_000 line 1140): `percentFormatter(latestValue / 100)`, i.e. the stored
value divided back by 100, with no plus/minus prefix. -/
def formattedLatestPercent (latestValue : ℚ) : String :=
  percentFormatter (latestValue / 100) false

/-- IDualKpiDataPoint: one sample `{date, value}`; the date is the
millisecond timestamp `Date.getTime()`. -/
structure IDualKpiDataPoint where
  date : ℚ
  value : ℚ
deriving DecidableEq, Repr

/-- Loop body of DualKpi.getPercentChangeStartPoint (visual.ts 444-472 /
part_000 603-631): walk the data keeping the last index whose date is older
than the target, stopping at the first equal or more recent date.  `idx` is
the current loop index `i`, `acc` the running `closestIndex`. -/
def getPercentChangeStartPointAux (percentCalcDateTime : ℚ) :
    List IDualKpiDataPoint → ℕ → ℕ → ℕ
  | [], _, acc => acc
  | d :: rest, idx, acc =>
    if d.date = percentCalcDateTime then idx
    else if d.date < percentCalcDateTime then
      getPercentChangeStartPointAux percentCalcDateTime rest (idx + 1) idx
    else acc

/-- DualKpi.getPercentChangeStartPoint; `none` models a null percentCalcDate
and the result is `chartData[closestIndex]` (`none` when out of range, i.e.
the JS `undefined`). -/
def getPercentChangeStartPoint (chartData : List IDualKpiDataPoint)
    (percentCalcDate : Option ℚ) : Option IDualKpiDataPoint :=
  match percentCalcDate with
  | some t => chartData.get? (getPercentChangeStartPointAux t chartData 0 0)
  | none => chartData.get? 0

/-- Size classes of the visual (enum DualKpiSize). -/
inductive DualKpiSize where
  | extrasmall
  | small
  | medium
  | large
deriving DecidableEq, Repr

/-- Viewport height clamp in update:
`options.viewport.height < 90 ? 90 : options.viewport.height`. -/
def availableHeight (h : ℚ) : ℚ := if h < 90 then 90 else h

/-- Viewport width clamp in update:
`options.viewport.width < 220 ? 220 : options.viewport.width`. -/
def availableWidth (w : ℚ) : ℚ := if w < 220 then 220 else w

/-- Size-class choice from the clamped height (update, visual.ts 180-207 /
part_000 311-335). -/
def sizeClass (ah : ℚ) : DualKpiSize :=
  if 450 ≤ ah then DualKpiSize.large
  else if 280 ≤ ah then DualKpiSize.medium
  else if 120 ≤ ah then DualKpiSize.small
  else DualKpiSize.extrasmall

/-- The size class update assigns for a raw viewport height. -/
def updateSizeClass (h : ℚ) : DualKpiSize := sizeClass (availableHeight h)

/-- DualKpi.getDaysBetween: `Math.round(Math.abs(t1 - t2) / 86400000)`
(one day = 24*60*60*1000 ms; Math.round is floor of x + 1/2). -/
def getDaysBetween (date1 date2 : ℚ) : ℤ :=
  ⌊mathAbs (date1 - date2) / 86400000 + 1/2⌋

/-- Outcome of attempting to draw one panel during update: the panel is
skipped, or drawn (recording the latest value drawChart reads), or the JS
code throws a TypeError. -/
inductive PanelOutcome where
  | skipped
  | drawn (latestValue : ℚ)
  | thrown
deriving DecidableEq, Repr

/-- drawChart reads `chartData[chartData.length - 1].value` on entry
(visual.ts line 793 / part_000 line 984); on an empty array
`chartData[-1]` is undefined and `.value` throws. -/
def drawChartLatest (chartData : List IDualKpiDataPoint) : PanelOutcome :=
  match chartData.getLast? with
  | some p => PanelOutcome.drawn p.value
  | none => PanelOutcome.thrown

/-- visual.ts update calls drawChart unconditionally (lines 220-232). -/
def updatePanelV1 (series : List IDualKpiDataPoint) : PanelOutcome :=
  drawChartLatest series

/-- part_000 update draws a panel only when its series is non-empty
(`if (data.topValues.length > 0)`, lines 350/369). -/
def updatePanelP0 (series : List IDualKpiDataPoint) : PanelOutcome :=
  if series.length > 0 then drawChartLatest series else PanelOutcome.skipped

/-- Outcome of the footer day-count math in drawBottomContainer. -/
inductive DayMathOutcome where
  | skippedDays
  | computed (daysOld dayRange : ℤ)
  | thrown
deriving DecidableEq, Repr

/-- visual.ts drawBottomContainer (lines 746-769) reads
`topValues[topValues.length-1].date` and `topValues[0].date` unguarded:
on an empty series both are undefined and `.date` throws. -/
def bottomDayMathV1 (topValues : List IDualKpiDataPoint) (now : ℚ) : DayMathOutcome :=
  match topValues.getLast?, topValues.head? with
  | some lastP, some firstP =>
      DayMathOutcome.computed (getDaysBetween lastP.date now)
        (getDaysBetween firstP.date lastP.date)
  | _, _ => DayMathOutcome.thrown

/-- part_000 drawBottomContainer guards the same math with
`if (this.data.topValues.length > 0)` (line 938). -/
def bottomDayMathP0 (topValues : List IDualKpiDataPoint) (now : ℚ) : DayMathOutcome :=
  if topValues.length > 0 then bottomDayMathV1 topValues now
  else DayMathOutcome.skippedDays

/-- Semantic roles a data-view column may carry (`col.roles[...]`); a column
can carry several at once. -/
structure Roles where
  axis : Bool := false
  topvalues : Bool := false
  bottomvalues : Bool := false
  warningstate : Bool := false
  toppercentdate : Bool := false
  bottompercentdate : Bool := false
deriving DecidableEq, Repr

/-- A metadata column: `roles` is checked for presence (`if (col.roles)`),
`format` may be absent (undefined). -/
structure Column where
  roles : Option Roles := some {}
  displayName : String := ""
  format : Option String := none
deriving DecidableEq, Repr

/-- The slice of a DataView the converter reads: metadata columns and table
rows.  Cells are numbers/timestamps, modelled as ℚ (a missing cell of a
short row reads as 0 here; JS would propagate NaN/Invalid Date — no claim
distinguishes the two). -/
structure DataViewM where
  columns : List Column
  rows : List (List ℚ)
deriving DecidableEq, Repr

/-- The six currency/percent symbols of getFormatSymbol; the regex
alternation of single-character classes returns the leftmost occurrence. -/
def formatSymbols : List Char := ['$', '€', '£', '¥', '₩', '%']

/-- DualKpi.getFormatSymbol (visual.ts 474-494 / part_000 633-653): first
matching symbol character of the format string, or undefined; an undefined
format has no match. -/
def getFormatSymbol (format : Option String) : Option String :=
  match format with
  | none => none
  | some f =>
    match f.toList.find? (fun c => decide (c ∈ formatSymbols)) with
    | none => none
    | some c => some c.toString

/-- Column indices resolved by the converter's role scan, all starting at -1,
plus the format symbols captured alongside (the JS locals
topValueFormatSymbol / bottomValueFormatSymbol start as ""). -/
structure ColIdx where
  axisCol : Int := -1
  topValuesCol : Int := -1
  bottomValuesCol : Int := -1
  warningStateCol : Int := -1
  topPercentDateCol : Int := -1
  bottomPercentDateCol : Int := -1
  topChartName : String := ""
  bottomChartName : String := ""
  topValueFormatSymbol : Option String := some ""
  bottomValueFormatSymbol : Option String := some ""
deriving DecidableEq, Repr

/-- Role scan of the converter (visual.ts 536-563 / part_000 695-722): one
pass over the columns, overwriting each index on every match (the checks are
independent ifs, not else-ifs). -/
def scanColumns : List Column → Int → ColIdx → ColIdx
  | [], _, acc => acc
  | col :: rest, i, acc =>
    let acc1 :=
      match col.roles with
      | none => acc
      | some r =>
        let a1 := if r.axis then { acc with axisCol := i } else acc
        let a2 := if r.topvalues then
            { a1 with
              topValuesCol := i
              topChartName := col.displayName
              topValueFormatSymbol := getFormatSymbol col.format } else a1
        let a3 := if r.bottomvalues then
            { a2 with
              bottomValuesCol := i
              bottomChartName := col.displayName
              bottomValueFormatSymbol := getFormatSymbol col.format } else a2
        let a4 := if r.warningstate then { a3 with warningStateCol := i } else a3
        let a5 := if r.toppercentdate then { a4 with topPercentDateCol := i } else a4
        if r.bottompercentdate then { a5 with bottomPercentDateCol := i } else a5
    scanColumns rest (i + 1) acc1

/-- JS `row[i]` for an integer index: undefined (none) when i is negative or
past the end. -/
def rowGet (row : List ℚ) (i : Int) : Option ℚ :=
  if i < 0 then none else row.get? i.toNat

/-- Cell read `col > -1 ? rows[i][col] : 0` used for both value columns in
the converter's row loop (a missing cell reads as 0, see DataViewM). -/
def rawCell (col : Int) (row : List ℚ) : ℚ :=
  if col > -1 then (rowGet row col).getD 0 else 0

/-- Row loop of the converter (visual.ts 576-598 / part_000 735-757): per
row, one date (axis cell, or "now" without an axis column) and the two
values, each scaled by 100 when its series is marked percent; one push per
row into each series. -/
def buildPoints (axisCol topValuesCol bottomValuesCol : Int)
    (topPct bottomPct : Bool) (now : ℚ) :
    List (List ℚ) → List IDualKpiDataPoint × List IDualKpiDataPoint
  | [] => ([], [])
  | row :: rest =>
    let date := if axisCol > -1 then (rowGet row axisCol).getD 0 else now
    let topValue := if topPct then rawCell topValuesCol row * 100
                    else rawCell topValuesCol row
    let bottomValue := if bottomPct then rawCell bottomValuesCol row * 100
                       else rawCell bottomValuesCol row
    let rest2 := buildPoints axisCol topValuesCol bottomValuesCol topPct bottomPct now rest
    (⟨date, topValue⟩ :: rest2.1, ⟨date, bottomValue⟩ :: rest2.2)

/-- Warning-state read of part_000 (lines 759-761):
`if (warningStateCol > -1) data.warningState = rows[rows.length-1][warningStateCol]`.
`some q` is an assigned number (or the initial 0 when the guard fails);
`none` models the JS undefined cell, or the TypeError thrown when rows is
empty (rows[-1] is undefined and indexing it throws). -/
def warningStateOf (warningStateCol : Int) (rows : List (List ℚ)) : Option ℚ :=
  if warningStateCol > -1 then
    (rows.getLast?).bind (fun row => rowGet row warningStateCol)
  else some 0

/-- Warning-state read of visual.ts (lines 600-602): the guard is the
truthiness test `if (warningStateCol)`, true exactly when the index is
nonzero — including the -1 "not found" sentinel. -/
def warningStateV1 (warningStateCol : Int) (rows : List (List ℚ)) : Option ℚ :=
  if warningStateCol ≠ 0 then
    (rows.getLast?).bind (fun row => rowGet row warningStateCol)
  else some 0

/-- The data-bound part of IDualKpiData produced by the converter (the
formatting-pane fields — title, colors, thresholds, percent dates — are
copied from host properties and are not touched by any claim, so they are
not modelled). -/
structure IDualKpiData where
  topChartName : String
  bottomChartName : String
  topValues : List IDualKpiDataPoint
  bottomValues : List IDualKpiDataPoint
  topValueAsPercent : Bool
  bottomValueAsPercent : Bool
  warningState : Option ℚ
deriving DecidableEq, Repr

/-- DualKpi.converter, part_000 variant (lines 655-764), data-bound fields:
role scan, percent-symbol detection (`=== "%"`), row loop, and the
`> -1`-guarded warning state. -/
def converter (dv : DataViewM) (now : ℚ) : IDualKpiData :=
  let idx := scanColumns dv.columns 0 {}
  let topPct := if idx.topValueFormatSymbol = some "%" then true else false
  let bottomPct := if idx.bottomValueFormatSymbol = some "%" then true else false
  let pts := buildPoints idx.axisCol idx.topValuesCol idx.bottomValuesCol
    topPct bottomPct now dv.rows
  { topChartName := idx.topChartName
    bottomChartName := idx.bottomChartName
    topValues := pts.1
    bottomValues := pts.2
    topValueAsPercent := topPct
    bottomValueAsPercent := bottomPct
    warningState := warningStateOf idx.warningStateCol dv.rows }

/-- DualKpi.converter, visual.ts variant (lines 496-604): identical except
for the truthiness-guarded warning state. -/
def converterV1 (dv : DataViewM) (now : ℚ) : IDualKpiData :=
  let idx := scanColumns dv.columns 0 {}
  let topPct := if idx.topValueFormatSymbol = some "%" then true else false
  let bottomPct := if idx.bottomValueFormatSymbol = some "%" then true else false
  let pts := buildPoints idx.axisCol idx.topValuesCol idx.bottomValuesCol
    topPct bottomPct now dv.rows
  { topChartName := idx.topChartName
    bottomChartName := idx.bottomChartName
    topValues := pts.1
    bottomValues := pts.2
    topValueAsPercent := topPct
    bottomValueAsPercent := bottomPct
    warningState := warningStateV1 idx.warningStateCol dv.rows }

/-- Data view whose single column carries the warningstate role at column
index 0, with one row [5]: the claim C1 boundary case. -/
def dvWarnAt0 : DataViewM := ⟨[{ roles := some { warningstate := true } }], [[5]]⟩

/-- Data view with a single role-less column and one row [5]: the
warningstate role is absent entirely. -/
def dvWarnAbsent : DataViewM := ⟨[{ roles := some {} }], [[5]]⟩

/-- Data view with one topvalues column whose format carries a percent
symbol, and a single row holding the raw fraction 1/4. -/
def dvPct : DataViewM :=
  ⟨[{ roles := some { topvalues := true }, displayName := "Top", format := some "0.0%" }],
    [[1/4]]⟩

/-- Per-panel axis bounds from the formatting pane; null (`none`) means
auto-fit to the series (IAxisConfig). -/
structure IAxisConfig where
  min : Option ℚ
  max : Option ℚ
deriving DecidableEq, Repr

/-- d3.min over the series values: smallest value, or undefined (none) on an
empty series. -/
def d3min : List ℚ → Option ℚ
  | [] => none
  | v :: rest =>
    match d3min rest with
    | none => some v
    | some m => some (min v m)

/-- d3.max over the series values: largest value, or undefined (none) on an
empty series. -/
def d3max : List ℚ → Option ℚ
  | [] => none
  | v :: rest =>
    match d3max rest with
    | none => some v
    | some m => some (max v m)

/-- drawChart's axis lower bound (visual.ts 802-805 / part_000 999-1002):
`axisConfig.min !== null ? axisConfig.min : (d3.min(values) || 0)` (the
`|| 0` guard is the part_000 form; both agree on non-empty data). -/
def axisMinValue (cfg : IAxisConfig) (chartData : List IDualKpiDataPoint) : ℚ :=
  match cfg.min with
  | some m => m
  | none => (d3min (chartData.map IDualKpiDataPoint.value)).getD 0

/-- drawChart's axis upper bound:
`axisConfig.max !== null ? axisConfig.max : (d3.max(values) || 0)`. -/
def axisMaxValue (cfg : IAxisConfig) (chartData : List IDualKpiDataPoint) : ℚ :=
  match cfg.max with
  | some m => m
  | none => (d3max (chartData.map IDualKpiDataPoint.value)).getD 0

/-- The Y axis tick values: `yAxis.tickValues([axisMinValue, axisMaxValue])`
(visual.ts 819-821 / part_000 1013-1015). -/
def yTickValues (cfg : IAxisConfig) (chartData : List IDualKpiDataPoint) : List ℚ :=
  [axisMinValue cfg chartData, axisMaxValue cfg chartData]

/-- Number of base-10 digits of n; capped at 27 digits, which covers every
value within the modelled SI-prefix range (|exponent| ≤ 24). -/
def digits10 (n : ℕ) : ℕ :=
  if n < 10 then 1 else if n < 100 then 2 else if n < 1000 then 3
  else if n < 10000 then 4 else if n < 100000 then 5 else if n < 1000000 then 6
  else if n < 10^7 then 7 else if n < 10^8 then 8 else if n < 10^9 then 9
  else if n < 10^10 then 10 else if n < 10^11 then 11 else if n < 10^12 then 12
  else if n < 10^13 then 13 else if n < 10^14 then 14 else if n < 10^15 then 15
  else if n < 10^16 then 16 else if n < 10^17 then 17 else if n < 10^18 then 18
  else if n < 10^19 then 19 else if n < 10^20 then 20 else if n < 10^21 then 21
  else if n < 10^22 then 22 else if n < 10^23 then 23 else if n < 10^24 then 24
  else if n < 10^25 then 25 else if n < 10^26 then 26 else 27

/-- Ceiling of log10 for arguments ≥ 1 (0 for w ≤ 1): the smallest z with
w ≤ 10^z, via the digit count of ⌈w⌉ − 1 (Math.ceil x = −Math.floor(−x)). -/
def ceilLog10Ge1 (w : ℚ) : ℤ :=
  if w ≤ 1 then 0 else (digits10 ((-⌊-w⌋).toNat - 1) : ℤ)

/-- Floor of log10 (junk value 0 for v ≤ 0): Math.floor(Math.log10 v). -/
def floorLog10 (v : ℚ) : ℤ :=
  if v ≤ 0 then 0
  else if v < 1 then -(ceilLog10Ge1 (1 / v))
  else ((digits10 (⌊v⌋).toNat : ℤ) - 1)

/-- Ceiling of log10 (junk value 0 for v ≤ 0): Math.ceil(Math.log10 v). -/
def ceilLog10 (v : ℚ) : ℤ :=
  if v ≤ 0 then 0
  else if v < 1 then -((digits10 (⌊1 / v⌋).toNat : ℤ) - 1)
  else ceilLog10Ge1 v

/-- Math.round: nearest integer, ties toward +infinity. -/
def jsRound (x : ℚ) : ℤ := ⌊x + 1/2⌋

/-- d3.round(x, n): `n ? Math.round(x * 10^n) / 10^n : Math.round(x)`. -/
def d3Round (x : ℚ) (n : ℤ) : ℚ :=
  if n = 0 then (jsRound x : ℚ) else (jsRound (x * 10 ^ n) : ℚ) / 10 ^ n

/-- d3_format_precision(x, p) = p − (x ? ceil(log10 x) : 1): how many
decimal places d3.round needs so that x keeps p significant digits. -/
def formatPrecisionQ (x : ℚ) (p : ℤ) : ℤ :=
  if x = 0 then p - 1 else p - ceilLog10 x

/-- d3_format_precision applied to x·(1 + 1e-15), as the "r" formatter does
for its toFixed digit count; the epsilon bumps an exact power of ten to the
next decade, so ceil(log10 x(1+ε)) = floor(log10 x) + 1 for x > 0. -/
def formatPrecisionF (x : ℚ) (p : ℤ) : ℤ :=
  if x = 0 then p - 1 else p - (floorLog10 x + 1)

/-- d3.round(v, d3_format_precision(v, p)): v rounded to p significant
digits. -/
def d3RoundSig (p : ℤ) (v : ℚ) : ℚ := d3Round v (formatPrecisionQ v p)

/-- Fraction-digit count the "r" formatter passes to toFixed:
`Math.max(0, Math.min(20, d3_format_precision(x*(1+1e-15), p)))`. -/
def digitsFor (p : ℤ) (x : ℚ) : ℕ := (max 0 (min 20 (formatPrecisionF x p))).toNat

/-- SI prefix symbol for a multiple-of-three decimal exponent
(d3_formatPrefixes). -/
def siSymbol (i : ℤ) : String :=
  if i = 3 then "k" else if i = 6 then "M" else if i = 9 then "G"
  else if i = 12 then "T" else if i = 15 then "P" else if i = 18 then "E"
  else if i = 21 then "Z" else if i = 24 then "Y"
  else if i = -3 then "m" else if i = -6 then "µ" else if i = -9 then "n"
  else if i = -12 then "p" else if i = -15 then "f" else if i = -18 then "a"
  else if i = -21 then "z" else if i = -24 then "y" else ""

/-- Left-pad a digit string with zeros to width f. -/
def padZeros (s : String) (f : ℕ) : String :=
  String.mk (List.replicate (f - s.length) '0') ++ s

/-- toFixed(f) for a nonnegative rational: f fraction digits, ties up. -/
def toFixedNat (x : ℚ) (f : ℕ) : String :=
  if f = 0 then toString ((jsRound x).toNat)
  else toString ((jsRound (x * 10 ^ f)).toNat / 10 ^ f) ++ "."
        ++ padZeros (toString ((jsRound (x * 10 ^ f)).toNat % 10 ^ f)) f

/-- d3.formatPrefix exponent for a positive magnitude: round v to p
significant digits, take its decimal exponent i = 1 + floor(log10 vr), then
clamp floor((i−1)/3)·3 to [−24, 24]. -/
def siPrefixExp (p : ℤ) (v : ℚ) : ℤ :=
  if v = 0 then 0
  else max (-24) (min 24 (Int.fdiv (floorLog10 (d3RoundSig p v)) 3 * 3))

/-- d3.format("s") on a nonnegative magnitude: scale by the SI prefix, round
to p significant digits with the "r" formatter, append the prefix symbol. -/
def d3FormatSAbs (p : ℤ) (v : ℚ) : String :=
  toFixedNat (d3RoundSig p (v / 10 ^ siPrefixExp p v))
      (digitsFor p (d3RoundSig p (v / 10 ^ siPrefixExp p v)))
    ++ siSymbol (siPrefixExp p v)

/-- Model of d3.format(".ps") (d3 v3): sign, then the SI-prefixed rendering
of the magnitude rounded to p significant digits.  The float fudge factors
(1e-12, 1e-15) of the library, which only compensate floating-point log
error, are interpreted exactly (see formatPrecisionF). -/
def d3FormatS (p : ℤ) (q : ℚ) : String :=
  (if q < 0 then "-" else "") ++ d3FormatSAbs p (mathAbs q)

/-- Tick label of the Y axis (visual.ts 822-828 / part_000 1016-1022):
`String(axisNumberFormatter(d))` with axisNumberFormatter = d3.format(".2s"),
plus a "%" suffix when the panel's values are percentages. -/
def yTickLabel (valueAsPercent : Bool) (d : ℚ) : String :=
  if valueAsPercent then d3FormatS 2 d ++ "%" else d3FormatS 2 d

/-- The two rendered tick labels of a panel's Y axis. -/
def yTickLabels (cfg : IAxisConfig) (chartData : List IDualKpiDataPoint)
    (valueAsPercent : Bool) : List String :=
  (yTickValues cfg chartData).map (yTickLabel valueAsPercent)
lemma mathAbs_eq_abs (q : ℚ) : mathAbs q = |q| := by
  rw [mathAbs]
  split_ifs with h
  · exact (abs_of_neg h).symm
  · exact (abs_of_nonneg (not_lt.mp h)).symm

lemma mathAbs_div (x y : ℚ) : mathAbs (x / y) = mathAbs x / mathAbs y := by
  rw [mathAbs_eq_abs, mathAbs_eq_abs, mathAbs_eq_abs, abs_div]

lemma mathAbs_nonneg (q : ℚ) : 0 ≤ mathAbs q := by
  rw [mathAbs_eq_abs]; exact abs_nonneg q

lemma mathAbs_pos (q : ℚ) (h : q ≠ 0) : 0 < mathAbs q := by
  rw [mathAbs_eq_abs]; exact abs_pos.mpr h

section StringHelpers

lemma string_empty_append (s : String) : "" ++ s = s := by
  cases s
  rfl

lemma string_plus_ne_minus (x y : String) : ("+" ++ x) ≠ ("-" ++ y) := by
  intro h
  have h2 := congrArg String.data h
  simp [String.data_append] at h2

end StringHelpers

/-- C4: for every end value E, getPercentChange(0, E) is the sentinel "n/a"
(the zero-start branch returns before any division). -/
theorem percentChange_zero_start_na : ∀ E : ℚ, getPercentChange 0 E = "n/a" := by
  intro E
  simp [getPercentChange]

/-- Closed form of getPercentChange for a nonzero start value: the sign
character is "-" exactly when E < S, and the digits render
round(|E−S|/|S|·1000, ties up) as "N.N" with a "%" suffix. -/
lemma getPercentChange_closed_form (S E : ℚ) (hS : S ≠ 0) :
    getPercentChange S E =
      (if E < S then "-" else "+")
        ++ toString (round1Mag S E / 10) ++ "." ++ toString (round1Mag S E % 10) ++ "%" := by
  rw [getPercentChange, if_neg hS, percentFormatter]
  by_cases hlt : E < S
  · have hd : (E - S) / S ≠ 0 :=
      div_ne_zero (sub_ne_zero.mpr (ne_of_lt hlt)) hS
    have hapos : 0 < mathAbs ((E - S) / S) := mathAbs_pos _ hd
    have hpc : mathAbs ((E - S) / S) * (-1) < 0 := by linarith
    rw [if_pos hlt, if_pos rfl, if_neg (not_le.mpr hpc), toFixed1]
    have hq : mathAbs ((E - S) / S) * (-1) * 100 < 0 := by linarith
    rw [if_pos hq]
    have habs : mathAbs (mathAbs ((E - S) / S) * (-1) * 100) * 10
        = mathAbs (E - S) / mathAbs S * 1000 := by
      rw [show mathAbs ((E - S) / S) * (-1) * 100 = -(mathAbs ((E - S) / S) * 100) by ring]
      rw [mathAbs_eq_abs, abs_neg, abs_of_nonneg (by positivity : (0:ℚ) ≤ mathAbs ((E - S) / S) * 100)]
      rw [mathAbs_div]
      ring
    rw [habs, round1Mag, if_pos hlt]
    simp [string_empty_append, String.append_assoc]
  · have hge : 0 ≤ mathAbs ((E - S) / S) := mathAbs_nonneg _
    rw [if_neg hlt, if_pos rfl, if_pos hge, toFixed1]
    have hq : ¬ mathAbs ((E - S) / S) * 100 < 0 := by
      intro h; nlinarith
    rw [if_neg hq]
    have habs : mathAbs (mathAbs ((E - S) / S) * 100) * 10
        = mathAbs (E - S) / mathAbs S * 1000 := by
      rw [mathAbs_eq_abs (mathAbs ((E - S) / S) * 100),
        abs_of_nonneg (by positivity : (0:ℚ) ≤ mathAbs ((E - S) / S) * 100)]
      rw [mathAbs_div]
      ring
    rw [habs, round1Mag, if_neg hlt]
    simp [string_empty_append, String.append_assoc]

/-- C5 (amended): for a nonzero start value S, the result string carries a
negative prefix iff E < S, and renders as sign ++ "N.N" ++ "%" where N.N
is |E−S|/|S| scaled by 100 and rounded to one decimal place (the amendment:
the divisor is |S|, not S, which only differs for negative S). -/
theorem percentChange_sign_magnitude (S E : ℚ) (hS : S ≠ 0) :
    ((∃ r, getPercentChange S E = "-" ++ r) ↔ E < S) ∧
    getPercentChange S E =
      (if E < S then "-" else "+")
        ++ toString (round1Mag S E / 10) ++ "." ++ toString (round1Mag S E % 10) ++ "%" := by
  have heq := getPercentChange_closed_form S E hS
  constructor
  · constructor
    · rintro ⟨r, hr⟩
      by_contra hnot
      rw [if_neg hnot] at heq
      rw [heq] at hr
      have : "+" ++ (toString (round1Mag S E / 10) ++ "." ++ toString (round1Mag S E % 10) ++ "%")
          = "-" ++ r := by
        rw [← hr]
        simp [String.append_assoc]
      exact string_plus_ne_minus _ _ this
    · intro hlt
      rw [if_pos hlt] at heq
      refine ⟨toString (round1Mag S E / 10) ++ "." ++ toString (round1Mag S E % 10) ++ "%", ?_⟩
      rw [heq]
      simp [String.append_assoc]
  · exact heq

/-- Witness for C5 at S = 10, E = 15: the hypothesis 10 ≠ 0 holds and the
rendered string is "+50.0%" with magnitude 50.0 = |15−10|/|10|·100. -/
theorem percentChange_sign_magnitude_witness :
    (10:ℚ) ≠ 0 ∧
    (((∃ r, getPercentChange 10 15 = "-" ++ r) ↔ (15:ℚ) < 10) ∧
      getPercentChange 10 15 =
        (if (15:ℚ) < 10 then "-" else "+")
          ++ toString (round1Mag 10 15 / 10) ++ "." ++ toString (round1Mag 10 15 % 10) ++ "%") ∧
    getPercentChange 10 15 = "+50.0%" := by
  refine ⟨by norm_num, percentChange_sign_magnitude 10 15 (by norm_num), ?_⟩
  norm_num [getPercentChange, percentFormatter, toFixed1, mathAbs]
  decide

/-- C5 counterexample: the claim as stated computes the magnitude as
|E−S|/S·100 (rounded to one decimal); at S = −10, E = −5 the code renders
"+50.0%" (magnitude 50), while |E−S|/S·100 = −50, so the claim is false. -/
theorem percentChange_magnitude_cex :
    getPercentChange (-10) (-5) = "+50.0%" ∧
    (⌊mathAbs ((-5 : ℚ) - (-10)) / (-10 : ℚ) * 100 * 10 + 1/2⌋ : ℤ) = -500 ∧
    ((round1Mag (-10) (-5) : ℤ) ≠ ⌊mathAbs ((-5 : ℚ) - (-10)) / (-10 : ℚ) * 100 * 10 + 1/2⌋) := by
  refine ⟨?_, by norm_num [mathAbs], ?_⟩
  · norm_num [getPercentChange, percentFormatter, toFixed1, mathAbs]
    decide
  · norm_num [round1Mag, mathAbs]

/-- C10: an unchanged nonzero value is reported as the plus-signed zero
change "+0.0%", not as "n/a" and not unsigned. -/
theorem percentChange_identity (S : ℚ) (hS : S ≠ 0) :
    getPercentChange S S = "+0.0%" := by
  rw [getPercentChange, if_neg hS]
  have h1 : ¬ (S < S) := lt_irrefl S
  rw [if_neg h1]
  have h2 : (S - S) / S = 0 := by rw [sub_self, zero_div]
  rw [h2]
  norm_num [percentFormatter, toFixed1, mathAbs]
  decide

/-- Witness for C10 at S = 7. -/
theorem percentChange_identity_witness :
    (7:ℚ) ≠ 0 ∧ getPercentChange 7 7 = "+0.0%" :=
  ⟨by norm_num, percentChange_identity 7 (by norm_num)⟩

lemma startPointAux_exact (t : ℚ) :
    ∀ (l : List IDualKpiDataPoint) (i : ℕ) (hi : i < l.length) (idx acc : ℕ),
      List.Pairwise (fun a b => a.date < b.date) l →
      (l.get ⟨i, hi⟩).date = t →
      getPercentChangeStartPointAux t l idx acc = idx + i := by
  intro l
  induction l with
  | nil => intro i hi; simp at hi
  | cons d rest ih =>
    intro i hi idx acc hp hd
    rcases List.pairwise_cons.mp hp with ⟨hdall, hrest⟩
    cases i with
    | zero =>
      have hd0 : d.date = t := hd
      simp only [getPercentChangeStartPointAux, if_pos hd0, Nat.add_zero]
    | succ j =>
      have hj : j < rest.length := Nat.lt_of_succ_lt_succ hi
      have hget : (rest.get ⟨j, hj⟩).date = t := hd
      have hmem : rest.get ⟨j, hj⟩ ∈ rest := List.get_mem rest j hj
      have hdt : d.date < t := hget ▸ hdall _ hmem
      simp only [getPercentChangeStartPointAux, if_neg (ne_of_lt hdt), if_pos hdt]
      rw [ih j hj (idx + 1) idx hrest hget]
      omega

/-- C8: on a non-empty, strictly date-ascending series,
getPercentChangeStartPoint returns the first point for a null date, and the
exact matching point when the date equals some S[i].date. -/
theorem startPoint_reference (S : List IDualKpiDataPoint) (hne : S ≠ [])
    (hasc : List.Pairwise (fun a b => a.date < b.date) S) :
    getPercentChangeStartPoint S none = some (S.head hne) ∧
    (∀ (i : ℕ) (hi : i < S.length),
      getPercentChangeStartPoint S (some ((S.get ⟨i, hi⟩).date)) = some (S.get ⟨i, hi⟩)) := by
  constructor
  · rw [getPercentChangeStartPoint, List.get?_zero, List.head?_eq_head hne]
  · intro i hi
    rw [getPercentChangeStartPoint,
      startPointAux_exact ((S.get ⟨i, hi⟩).date) S i hi 0 0 hasc rfl]
    simpa using List.get?_eq_get hi

/-- Witness for C8 on the concrete ascending series
[(1,10),(2,20),(3,30)], checked at index 1. -/
theorem startPoint_reference_witness :
    ([⟨1, 10⟩, ⟨2, 20⟩, ⟨3, 30⟩] : List IDualKpiDataPoint) ≠ [] ∧
    List.Pairwise (fun a b : IDualKpiDataPoint => a.date < b.date)
      [⟨1, 10⟩, ⟨2, 20⟩, ⟨3, 30⟩] ∧
    (getPercentChangeStartPoint [⟨1, 10⟩, ⟨2, 20⟩, ⟨3, 30⟩] none
        = some (([⟨1, 10⟩, ⟨2, 20⟩, ⟨3, 30⟩] : List IDualKpiDataPoint).head (by simp)) ∧
      (∀ (i : ℕ) (hi : i < ([⟨1, 10⟩, ⟨2, 20⟩, ⟨3, 30⟩] : List IDualKpiDataPoint).length),
        getPercentChangeStartPoint [⟨1, 10⟩, ⟨2, 20⟩, ⟨3, 30⟩]
            (some ((([⟨1, 10⟩, ⟨2, 20⟩, ⟨3, 30⟩] : List IDualKpiDataPoint).get ⟨i, hi⟩).date))
          = some (([⟨1, 10⟩, ⟨2, 20⟩, ⟨3, 30⟩] : List IDualKpiDataPoint).get ⟨i, hi⟩))) :=
  ⟨by simp, by norm_num [List.pairwise_cons],
    startPoint_reference _ (by simp) (by norm_num [List.pairwise_cons])⟩

/-- C7: height is clamped to ≥ 90 and width to ≥ 220, and the size class is
chosen from the clamped height with closed-above thresholds
(≥450 large, ≥280 medium, ≥120 small, else extra-small), including the six
boundary examples of the claim. -/
theorem size_class_thresholds : ∀ h w : ℚ,
    availableHeight h = max 90 h ∧
    availableWidth w = max 220 w ∧
    (updateSizeClass h = DualKpiSize.large ↔ 450 ≤ availableHeight h) ∧
    (updateSizeClass h = DualKpiSize.medium ↔
      280 ≤ availableHeight h ∧ availableHeight h < 450) ∧
    (updateSizeClass h = DualKpiSize.small ↔
      120 ≤ availableHeight h ∧ availableHeight h < 280) ∧
    (updateSizeClass h = DualKpiSize.extrasmall ↔ availableHeight h < 120) ∧
    updateSizeClass 450 = DualKpiSize.large ∧
    updateSizeClass 449 = DualKpiSize.medium ∧
    updateSizeClass 280 = DualKpiSize.medium ∧
    updateSizeClass 279 = DualKpiSize.small ∧
    updateSizeClass 120 = DualKpiSize.small ∧
    updateSizeClass 119 = DualKpiSize.extrasmall := by
  intro h w
  refine ⟨?_, ?_, ?_, ?_, ?_, ?_, ?_, ?_, ?_, ?_, ?_, ?_⟩
  · rw [availableHeight]
    split_ifs with hh
    · exact (max_eq_left (le_of_lt hh)).symm
    · exact (max_eq_right (not_lt.mp hh)).symm
  · rw [availableWidth]
    split_ifs with hw
    · exact (max_eq_left (le_of_lt hw)).symm
    · exact (max_eq_right (not_lt.mp hw)).symm
  · rw [updateSizeClass, sizeClass]
    split_ifs with h1 h2 h3 <;> simp_all <;> linarith
  · rw [updateSizeClass, sizeClass]
    split_ifs with h1 h2 h3 <;> simp_all <;> intro h4 <;> linarith
  · rw [updateSizeClass, sizeClass]
    split_ifs with h1 h2 h3 <;> simp_all <;> intro h4 <;> linarith
  · rw [updateSizeClass, sizeClass]
    split_ifs with h1 h2 h3 <;> simp_all <;> linarith
  · norm_num [updateSizeClass, sizeClass, availableHeight]
  · norm_num [updateSizeClass, sizeClass, availableHeight]
  · norm_num [updateSizeClass, sizeClass, availableHeight]
  · norm_num [updateSizeClass, sizeClass, availableHeight]
  · norm_num [updateSizeClass, sizeClass, availableHeight]
  · norm_num [updateSizeClass, sizeClass, availableHeight]

/-- C2 (code bug in visual.ts): part_000's update skips an empty panel and
never throws, and its footer day math never throws; but visual.ts draws
unconditionally and throws on the empty series, as does its footer math. -/
theorem empty_series_guard_bug :
    updatePanelP0 [] = PanelOutcome.skipped ∧
    (∀ s : List IDualKpiDataPoint, updatePanelP0 s ≠ PanelOutcome.thrown) ∧
    (∀ (tv : List IDualKpiDataPoint) (now : ℚ),
      bottomDayMathP0 tv now ≠ DayMathOutcome.thrown) ∧
    updatePanelV1 [] = PanelOutcome.thrown ∧
    bottomDayMathV1 [] 0 = DayMathOutcome.thrown := by
  refine ⟨rfl, ?_, ?_, rfl, rfl⟩
  · intro s
    cases s with
    | nil => simp [updatePanelP0]
    | cons a l =>
      rw [updatePanelP0, if_pos (by simp)]
      rw [drawChartLatest]
      cases hlast : (a :: l).getLast? with
      | none => exact absurd (List.getLast?_eq_none.mp hlast) (List.cons_ne_nil a l)
      | some p => simp
  · intro tv now
    cases tv with
    | nil => simp [bottomDayMathP0]
    | cons a l =>
      rw [bottomDayMathP0, if_pos (by simp)]
      rw [bottomDayMathV1]
      cases hlast : (a :: l).getLast? with
      | none => exact absurd (List.getLast?_eq_none.mp hlast) (List.cons_ne_nil a l)
      | some p => simp

lemma string_append_empty (s : String) : s ++ "" = s := by
  cases s with
  | mk l => exact congrArg String.mk (List.append_nil l)

lemma d3min_eq_none : ∀ l : List ℚ, d3min l = none → l = [] := by
  intro l h
  cases l with
  | nil => rfl
  | cons v rest =>
    rw [d3min] at h
    cases hr : d3min rest with
    | none => rw [hr] at h; simp at h
    | some m => rw [hr] at h; simp at h

lemma d3min_spec : ∀ (l : List ℚ) (m : ℚ), d3min l = some m → m ∈ l ∧ ∀ v ∈ l, m ≤ v := by
  intro l
  induction l with
  | nil => intro m h; simp [d3min] at h
  | cons v rest ih =>
    intro m h
    rw [d3min] at h
    cases hr : d3min rest with
    | none =>
      rw [hr] at h
      simp only [Option.some.injEq] at h
      have hrest := d3min_eq_none rest hr
      subst hrest
      subst h
      exact ⟨List.mem_singleton.mpr rfl, by intro x hx; simp at hx; simp [hx]⟩
    | some m0 =>
      rw [hr] at h
      simp only [Option.some.injEq] at h
      rcases ih m0 hr with ⟨hmem, hle⟩
      subst h
      constructor
      · rcases min_choice v m0 with h1 | h1 <;> rw [h1]
        · exact List.mem_cons_self v rest
        · exact List.mem_cons_of_mem v hmem
      · intro x hx
        rcases List.mem_cons.mp hx with h2 | h2
        · rw [h2]; exact min_le_left v m0
        · exact le_trans (min_le_right v m0) (hle x h2)

lemma d3max_eq_none : ∀ l : List ℚ, d3max l = none → l = [] := by
  intro l h
  cases l with
  | nil => rfl
  | cons v rest =>
    rw [d3max] at h
    cases hr : d3max rest with
    | none => rw [hr] at h; simp at h
    | some m => rw [hr] at h; simp at h

lemma d3max_spec : ∀ (l : List ℚ) (m : ℚ), d3max l = some m → m ∈ l ∧ ∀ v ∈ l, v ≤ m := by
  intro l
  induction l with
  | nil => intro m h; simp [d3max] at h
  | cons v rest ih =>
    intro m h
    rw [d3max] at h
    cases hr : d3max rest with
    | none =>
      rw [hr] at h
      simp only [Option.some.injEq] at h
      have hrest := d3max_eq_none rest hr
      subst hrest
      subst h
      exact ⟨List.mem_singleton.mpr rfl, by intro x hx; simp at hx; simp [hx]⟩
    | some m0 =>
      rw [hr] at h
      simp only [Option.some.injEq] at h
      rcases ih m0 hr with ⟨hmem, hle⟩
      subst h
      constructor
      · rcases max_choice v m0 with h1 | h1 <;> rw [h1]
        · exact List.mem_cons_self v rest
        · exact List.mem_cons_of_mem v hmem
      · intro x hx
        rcases List.mem_cons.mp hx with h2 | h2
        · rw [h2]; exact le_max_left v m0
        · exact le_trans (hle x h2) (le_max_right v m0)

lemma buildPoints_length (a t b : Int) (tp bp : Bool) (now : ℚ) :
    ∀ rows : List (List ℚ),
      (buildPoints a t b tp bp now rows).1.length = rows.length ∧
      (buildPoints a t b tp bp now rows).2.length = rows.length := by
  intro rows
  induction rows with
  | nil => simp [buildPoints]
  | cons row rest ih => simp [buildPoints, ih.1, ih.2]

lemma buildPoints_dates (a t b : Int) (tp bp : Bool) (now : ℚ) :
    ∀ (rows : List (List ℚ)) (i : ℕ),
      (((buildPoints a t b tp bp now rows).1.get? i).map IDualKpiDataPoint.date)
        = (((buildPoints a t b tp bp now rows).2.get? i).map IDualKpiDataPoint.date) := by
  intro rows
  induction rows with
  | nil => intro i; simp [buildPoints]
  | cons row rest ih =>
    intro i
    cases i with
    | zero => simp [buildPoints]
    | succ j => simpa [buildPoints] using ih j

/-- C9: the converter always produces topValues and bottomValues of the same
length as the table (one entry per row), with identical dates at every
index; the visual.ts variant builds the very same two series. -/
theorem converter_parallel_series (dv : DataViewM) (now : ℚ) :
    (converter dv now).topValues.length = dv.rows.length ∧
    (converter dv now).bottomValues.length = dv.rows.length ∧
    (∀ i : ℕ,
      (((converter dv now).topValues.get? i).map IDualKpiDataPoint.date)
        = (((converter dv now).bottomValues.get? i).map IDualKpiDataPoint.date)) ∧
    (converterV1 dv now).topValues = (converter dv now).topValues ∧
    (converterV1 dv now).bottomValues = (converter dv now).bottomValues := by
  refine ⟨?_, ?_, ?_, rfl, rfl⟩
  · exact (buildPoints_length _ _ _ _ _ _ dv.rows).1
  · exact (buildPoints_length _ _ _ _ _ _ dv.rows).2
  · intro i
    exact buildPoints_dates _ _ _ _ _ _ dv.rows i

lemma buildPoints_top_percent (a t b : Int) (bp : Bool) (now : ℚ) :
    ∀ rows : List (List ℚ),
      ((buildPoints a t b true bp now rows).1.map IDualKpiDataPoint.value)
        = rows.map (fun row => rawCell t row * 100) := by
  intro rows
  induction rows with
  | nil => simp [buildPoints]
  | cons row rest ih => simp [buildPoints, ih]

/-- C6: when the percent symbol is detected on the topvalues column, every
stored top value is the raw cell times 100, and the latest-value display
divides the stored value back by 100 before percent formatting, so the raw
fraction 1/4 (0.25), stored as 25, is redisplayed exactly as "25.0%". -/
theorem percent_round_trip (dv : DataViewM) (now : ℚ)
    (hpct : (converter dv now).topValueAsPercent = true) :
    ((converter dv now).topValues.map IDualKpiDataPoint.value)
      = dv.rows.map
          (fun row => rawCell (scanColumns dv.columns 0 {}).topValuesCol row * 100) ∧
    formattedLatestPercent ((1/4 : ℚ) * 100) = "25.0%" := by
  constructor
  · simp only [converter] at hpct ⊢
    rw [hpct]
    exact buildPoints_top_percent _ _ _ _ _ dv.rows
  · norm_num [formattedLatestPercent, percentFormatter, toFixed1, mathAbs]
    decide

/-- Witness for C6 on dvPct (topvalues column with format "0.0%", one row
[1/4]): the percent flag is detected, the theorem applies, and the stored
series evaluates to [25]. -/
theorem percent_round_trip_witness :
    (converter dvPct 0).topValueAsPercent = true ∧
    (((converter dvPct 0).topValues.map IDualKpiDataPoint.value)
        = dvPct.rows.map
            (fun row => rawCell (scanColumns dvPct.columns 0 {}).topValuesCol row * 100) ∧
      formattedLatestPercent ((1/4 : ℚ) * 100) = "25.0%") ∧
    dvPct.rows.map
        (fun row => rawCell (scanColumns dvPct.columns 0 {}).topValuesCol row * 100)
      = [25] := by
  refine ⟨by decide, percent_round_trip dvPct 0 (by decide), ?_⟩
  have hcol : (scanColumns dvPct.columns 0 {}).topValuesCol = 0 := by decide
  simp only [hcol]
  norm_num [dvPct, rawCell, rowGet]

/-- C1 (code bug in visual.ts): with the warningstate role on column index 0
and last row value 5, part_000's converter reports warning state 5 as the
claim requires, but visual.ts keeps 0 (its `if (warningStateCol)` treats
index 0 as "role absent"); with the role absent entirely, part_000 keeps 0
but visual.ts reads rows[last][-1], i.e. undefined. -/
theorem warning_state_truthiness_bug :
    (converter dvWarnAt0 0).warningState = some 5 ∧
    (converterV1 dvWarnAt0 0).warningState = some 0 ∧
    (converter dvWarnAbsent 0).warningState = some 0 ∧
    (converterV1 dvWarnAbsent 0).warningState = none ∧
    (5 : ℚ) ≠ 0 := by
  have h1 : (scanColumns dvWarnAt0.columns 0 {}).warningStateCol = 0 := by decide
  have h2 : (scanColumns dvWarnAbsent.columns 0 {}).warningStateCol = -1 := by decide
  refine ⟨?_, ?_, ?_, ?_, by norm_num⟩
  · simp only [converter, h1]
    norm_num [warningStateOf, rowGet, dvWarnAt0]
  · simp only [converterV1, h1]
    norm_num [warningStateV1, rowGet, dvWarnAt0]
  · simp only [converter, h2]
    norm_num [warningStateOf, rowGet, dvWarnAbsent]
  · simp only [converterV1, h2]
    norm_num [warningStateV1, rowGet, dvWarnAbsent]

lemma d3FormatSAbs_eval (p : ℤ) (v : ℚ) (i3 : ℤ) (x : ℚ) (f : ℕ)
    (h1 : siPrefixExp p v = i3) (h2 : d3RoundSig p (v / 10 ^ i3) = x)
    (h3 : digitsFor p x = f) :
    d3FormatSAbs p v = toFixedNat x f ++ siSymbol i3 := by
  rw [d3FormatSAbs, h1, h2, h3]

lemma d3fs2_ten : d3FormatS 2 10 = "10" := by
  have hr : d3RoundSig 2 (10 : ℚ) = 10 := by
    norm_num [d3RoundSig, formatPrecisionQ, ceilLog10, ceilLog10Ge1]
    simp [digits10]
    norm_num [d3Round, jsRound]
  have hexp : siPrefixExp 2 (10 : ℚ) = 0 := by
    simp only [siPrefixExp, hr]
    norm_num [floorLog10]
    simp [digits10]
  have hr2 : d3RoundSig 2 ((10 : ℚ) / 10 ^ (0 : ℤ)) = 10 := by
    norm_num [d3RoundSig, formatPrecisionQ, ceilLog10, ceilLog10Ge1]
    simp [digits10]
    norm_num [d3Round, jsRound]
  have hdig : digitsFor 2 (10 : ℚ) = 0 := by
    norm_num [digitsFor, formatPrecisionF, floorLog10]
    simp [digits10]
  rw [d3FormatS, if_neg (by norm_num : ¬ (10:ℚ) < 0),
    show mathAbs 10 = 10 by norm_num [mathAbs],
    d3FormatSAbs_eval 2 10 0 10 0 hexp hr2 hdig]
  norm_num [toFixedNat, jsRound, siSymbol]
  decide

lemma d3fs2_twenty : d3FormatS 2 20 = "20" := by
  have hr : d3RoundSig 2 (20 : ℚ) = 20 := by
    norm_num [d3RoundSig, formatPrecisionQ, ceilLog10, ceilLog10Ge1]
    simp [digits10]
    norm_num [d3Round, jsRound]
  have hexp : siPrefixExp 2 (20 : ℚ) = 0 := by
    simp only [siPrefixExp, hr]
    norm_num [floorLog10]
    simp [digits10]
  have hr2 : d3RoundSig 2 ((20 : ℚ) / 10 ^ (0 : ℤ)) = 20 := by
    norm_num [d3RoundSig, formatPrecisionQ, ceilLog10, ceilLog10Ge1]
    simp [digits10]
    norm_num [d3Round, jsRound]
  have hdig : digitsFor 2 (20 : ℚ) = 0 := by
    norm_num [digitsFor, formatPrecisionF, floorLog10]
    simp [digits10]
  rw [d3FormatS, if_neg (by norm_num : ¬ (20:ℚ) < 0),
    show mathAbs 20 = 20 by norm_num [mathAbs],
    d3FormatSAbs_eval 2 20 0 20 0 hexp hr2 hdig]
  norm_num [toFixedNat, jsRound, siSymbol]
  decide

lemma d3fs2_1234 : d3FormatS 2 1234 = "1.2k" := by
  have hc : ceilLog10 (1234 : ℚ) = 4 := by
    norm_num [ceilLog10, ceilLog10Ge1]
    simp [digits10]
  have hr : d3RoundSig 2 (1234 : ℚ) = 1200 := by
    rw [d3RoundSig, formatPrecisionQ, if_neg (by norm_num : (1234:ℚ) ≠ 0), hc]
    norm_num [d3Round, jsRound]
  have hexp : siPrefixExp 2 (1234 : ℚ) = 3 := by
    simp only [siPrefixExp, hr]
    norm_num [floorLog10]
    simp [digits10]
  have hc2 : ceilLog10 ((1234 : ℚ) / 10 ^ (3 : ℤ)) = 1 := by
    norm_num [ceilLog10, ceilLog10Ge1]
    norm_num
    simp [digits10]
  have hr2 : d3RoundSig 2 ((1234 : ℚ) / 10 ^ (3 : ℤ)) = 6/5 := by
    rw [d3RoundSig, formatPrecisionQ,
      if_neg (by norm_num : (1234:ℚ) / 10 ^ (3:ℤ) ≠ 0), hc2]
    norm_num [d3Round, jsRound]
  have hdig : digitsFor 2 ((6:ℚ)/5) = 1 := by
    norm_num [digitsFor, formatPrecisionF, floorLog10, ceilLog10Ge1]
    simp [digits10]
  rw [d3FormatS, if_neg (by norm_num : ¬ (1234:ℚ) < 0),
    show mathAbs 1234 = 1234 by norm_num [mathAbs],
    d3FormatSAbs_eval 2 1234 3 (6/5) 1 hexp hr2 hdig]
  norm_num [toFixedNat, jsRound, padZeros, siSymbol]
  decide

lemma d3fs3_1234 : d3FormatS 3 1234 = "1.23k" := by
  have hc : ceilLog10 (1234 : ℚ) = 4 := by
    norm_num [ceilLog10, ceilLog10Ge1]
    simp [digits10]
  have hr : d3RoundSig 3 (1234 : ℚ) = 1230 := by
    rw [d3RoundSig, formatPrecisionQ, if_neg (by norm_num : (1234:ℚ) ≠ 0), hc]
    norm_num [d3Round, jsRound]
  have hexp : siPrefixExp 3 (1234 : ℚ) = 3 := by
    simp only [siPrefixExp, hr]
    norm_num [floorLog10]
    simp [digits10]
  have hc2 : ceilLog10 ((1234 : ℚ) / 10 ^ (3 : ℤ)) = 1 := by
    norm_num [ceilLog10, ceilLog10Ge1]
    norm_num
    simp [digits10]
  have hr2 : d3RoundSig 3 ((1234 : ℚ) / 10 ^ (3 : ℤ)) = 123/100 := by
    rw [d3RoundSig, formatPrecisionQ,
      if_neg (by norm_num : (1234:ℚ) / 10 ^ (3:ℤ) ≠ 0), hc2]
    norm_num [d3Round, jsRound]
  have hdig : digitsFor 3 ((123:ℚ)/100) = 2 := by
    norm_num [digitsFor, formatPrecisionF, floorLog10, ceilLog10Ge1]
    simp [digits10]
  rw [d3FormatS, if_neg (by norm_num : ¬ (1234:ℚ) < 0),
    show mathAbs 1234 = 1234 by norm_num [mathAbs],
    d3FormatSAbs_eval 3 1234 3 (123/100) 2 hexp hr2 hdig]
  norm_num [toFixedNat, jsRound, padZeros, siSymbol]
  decide

/-- C3 (amended): every rendered panel has exactly two Y-axis ticks, at
axisMin and axisMax; each bound is the configured per-panel value when
non-null, otherwise the observed minimum/maximum of the series; each label
is the tick value through the 2-significant-digit SI formatter (d3
format ".2s" — the amendment: the code uses 2 significant digits, not 3),
with a "%" suffix exactly when the panel's values are percentages. -/
theorem yaxis_two_ticks (cfg : IAxisConfig) (chartData : List IDualKpiDataPoint)
    (pct : Bool) (hne : chartData ≠ []) :
    (yTickLabels cfg chartData pct).length = 2 ∧
    yTickValues cfg chartData = [axisMinValue cfg chartData, axisMaxValue cfg chartData] ∧
    (∀ m : ℚ, axisMinValue ⟨some m, cfg.max⟩ chartData = m) ∧
    (∀ m : ℚ, axisMaxValue ⟨cfg.min, some m⟩ chartData = m) ∧
    (cfg.min = none →
      axisMinValue cfg chartData ∈ chartData.map IDualKpiDataPoint.value ∧
      ∀ v ∈ chartData.map IDualKpiDataPoint.value, axisMinValue cfg chartData ≤ v) ∧
    (cfg.max = none →
      axisMaxValue cfg chartData ∈ chartData.map IDualKpiDataPoint.value ∧
      ∀ v ∈ chartData.map IDualKpiDataPoint.value, v ≤ axisMaxValue cfg chartData) ∧
    yTickLabels cfg chartData pct =
      [yTickLabel pct (axisMinValue cfg chartData),
        yTickLabel pct (axisMaxValue cfg chartData)] ∧
    (∀ d : ℚ, yTickLabel pct d = d3FormatS 2 d ++ (if pct then "%" else "")) := by
  have hvne : chartData.map IDualKpiDataPoint.value ≠ [] := by
    simpa using hne
  refine ⟨by simp [yTickLabels, yTickValues], rfl, fun m => rfl, fun m => rfl,
    ?_, ?_, rfl, ?_⟩
  · intro hmin
    simp only [axisMinValue, hmin]
    cases hd : d3min (chartData.map IDualKpiDataPoint.value) with
    | none => exact absurd (d3min_eq_none _ hd) hvne
    | some m =>
      simpa using d3min_spec _ m hd
  · intro hmax
    simp only [axisMaxValue, hmax]
    cases hd : d3max (chartData.map IDualKpiDataPoint.value) with
    | none => exact absurd (d3max_eq_none _ hd) hvne
    | some m =>
      simpa using d3max_spec _ m hd
  · intro d
    cases pct <;> simp [yTickLabel, string_append_empty]

/-- Witness for C3 on an auto-fit panel with series [(1,10),(2,20)]: the
hypothesis holds, the theorem applies, and the two labels evaluate to
["10", "20"] (the scenario of the spec). -/
theorem yaxis_two_ticks_witness :
    ([⟨1, 10⟩, ⟨2, 20⟩] : List IDualKpiDataPoint) ≠ [] ∧
    ((yTickLabels ⟨none, none⟩ [⟨1, 10⟩, ⟨2, 20⟩] false).length = 2 ∧
      yTickValues ⟨none, none⟩ [⟨1, 10⟩, ⟨2, 20⟩]
        = [axisMinValue ⟨none, none⟩ [⟨1, 10⟩, ⟨2, 20⟩],
            axisMaxValue ⟨none, none⟩ [⟨1, 10⟩, ⟨2, 20⟩]] ∧
      (∀ m : ℚ, axisMinValue ⟨some m, none⟩ [⟨1, 10⟩, ⟨2, 20⟩] = m) ∧
      (∀ m : ℚ, axisMaxValue ⟨none, some m⟩ [⟨1, 10⟩, ⟨2, 20⟩] = m) ∧
      ((none : Option ℚ) = none →
        axisMinValue ⟨none, none⟩ [⟨1, 10⟩, ⟨2, 20⟩]
            ∈ ([⟨1, 10⟩, ⟨2, 20⟩] : List IDualKpiDataPoint).map IDualKpiDataPoint.value ∧
        ∀ v ∈ ([⟨1, 10⟩, ⟨2, 20⟩] : List IDualKpiDataPoint).map IDualKpiDataPoint.value,
          axisMinValue ⟨none, none⟩ [⟨1, 10⟩, ⟨2, 20⟩] ≤ v) ∧
      ((none : Option ℚ) = none →
        axisMaxValue ⟨none, none⟩ [⟨1, 10⟩, ⟨2, 20⟩]
            ∈ ([⟨1, 10⟩, ⟨2, 20⟩] : List IDualKpiDataPoint).map IDualKpiDataPoint.value ∧
        ∀ v ∈ ([⟨1, 10⟩, ⟨2, 20⟩] : List IDualKpiDataPoint).map IDualKpiDataPoint.value,
          v ≤ axisMaxValue ⟨none, none⟩ [⟨1, 10⟩, ⟨2, 20⟩]) ∧
      yTickLabels ⟨none, none⟩ [⟨1, 10⟩, ⟨2, 20⟩] false =
        [yTickLabel false (axisMinValue ⟨none, none⟩ [⟨1, 10⟩, ⟨2, 20⟩]),
          yTickLabel false (axisMaxValue ⟨none, none⟩ [⟨1, 10⟩, ⟨2, 20⟩])] ∧
      (∀ d : ℚ, yTickLabel false d = d3FormatS 2 d ++ (if false then "%" else ""))) ∧
    yTickLabels ⟨none, none⟩ [⟨1, 10⟩, ⟨2, 20⟩] false = ["10", "20"] := by
  refine ⟨by simp, yaxis_two_ticks ⟨none, none⟩ [⟨1, 10⟩, ⟨2, 20⟩] false (by simp), ?_⟩
  have hmin : axisMinValue ⟨none, none⟩ [⟨1, 10⟩, ⟨2, 20⟩] = 10 := by
    simp [axisMinValue, d3min]
    norm_num
  have hmax : axisMaxValue ⟨none, none⟩ [⟨1, 10⟩, ⟨2, 20⟩] = 20 := by
    simp [axisMaxValue, d3max]
    norm_num
  rw [yTickLabels, yTickValues, hmin, hmax]
  simp [yTickLabel, d3fs2_ten, d3fs2_twenty]

/-- C3 counterexample: the claim says tick labels come from a
3-significant-digit SI formatter; at tick value 1234 the code renders
"1.2k" (d3 ".2s") while the 3-significant formatter gives "1.23k"; shown on
a full panel with configured bounds [10, 1234]. -/
theorem yaxis_tick_precision_cex :
    yTickLabel false 1234 = "1.2k" ∧
    d3FormatS 3 1234 = "1.23k" ∧
    yTickLabel false 1234 ≠ d3FormatS 3 1234 ∧
    yTickLabels ⟨some 10, some 1234⟩ [⟨1, 5⟩] false = ["10", "1.2k"] := by
  have hl : yTickLabel false 1234 = "1.2k" := by
    rw [yTickLabel, if_neg (by simp)]
    exact d3fs2_1234
  refine ⟨hl, d3fs3_1234, ?_, ?_⟩
  · rw [hl, d3fs3_1234]
    decide
  · rw [yTickLabels, yTickValues]
    simp only [axisMinValue, axisMaxValue]
    simp [yTickLabel, d3fs2_ten, d3fs2_1234]
